import Mathlib

/-!
Shallow embedding of the authentication core of the Sales Platform
authentication service: the `users` table and `UsersService`
(`src/users/users.service.ts`, `src/users/entities/user.entity.ts`,
`src/users/dto/create-user.dto.ts`) and `AuthService`
(`src/auth/auth.service.ts`), with the external collaborators (bcrypt,
the JWT library, uuid generation and clock) passed in as parameters.
Timestamps are modelled as `Nat` instants, the generated uuid as a `Nat`
drawn from a per-store counter, nullable columns as `Option`, and a
thrown Nest exception as the `.error` side of an `Except`, paired with
the state of the store at the moment of the throw.
-/

namespace SalesAuth

/-- The `AuthProvider` enum of `user.entity.ts`: `local`, `google`,
`facebook`, `twitter`. `local` is a Lean keyword, so that constructor is
spelled `localProv`. -/
inductive AuthProvider where
  | localProv
  | google
  | facebook
  | twitter
  deriving DecidableEq

/-- One row of the `users` table (`user.entity.ts`). `password` holds the
bcrypt hash and is a nullable column, absent for OAuth-only accounts. -/
structure User where
  id : Nat
  email : String
  password : Option String
  name : String
  profilePicture : Option String
  authProvider : AuthProvider
  providerId : Option String
  isActive : Bool
  emailVerified : Bool
  emailVerificationToken : Option String
  resetPasswordToken : Option String
  resetPasswordExpires : Option Nat
  createdAt : Nat
  updatedAt : Nat
  lastLogin : Option Nat
  deriving DecidableEq

/-- The users table together with the id generator: newly inserted rows
receive `nextId` as their generated primary key. -/
structure Store where
  users : List User
  nextId : Nat
  deriving DecidableEq

/-- The Nest exceptions thrown by the service layer:
`UnauthorizedException`, `ConflictException`, `NotFoundException`. -/
inductive AuthError where
  | unauthorized (msg : String)
  | conflict (msg : String)
  | notFound (msg : String)
  deriving DecidableEq

/-- `UsersService.findByEmail`: `findOne({ where: { email } })`. -/
def findByEmail (s : Store) (email : String) : Option User :=
  s.users.find? (fun u => u.email == email)

/-- `UsersService.findByProviderData`:
`findOne({ where: { authProvider: provider, providerId } })`. -/
def findByProviderData (s : Store) (provider : AuthProvider) (providerId : String) :
    Option User :=
  s.users.find? (fun u => u.authProvider == provider && u.providerId == some providerId)

/-- `UsersService.updateLastLogin`:
`userRepository.update(id, { lastLogin: new Date() })` — sets `lastLogin`
on the row with the given primary key. -/
def updateLastLogin (s : Store) (id : Nat) (now : Nat) : Store :=
  { s with
    users := s.users.map (fun u => if u.id == id then { u with lastLogin := some now } else u) }

/-- `CreateUserDto` (`create-user.dto.ts`): optional fields are `Option`,
a key absent from the payload being `none`. -/
structure CreateUserDto where
  email : String
  password : Option String
  name : String
  profilePicture : Option String
  authProvider : Option AuthProvider
  providerId : Option String
  deriving DecidableEq

/-- The row `UsersService.create` builds and saves. JS truthiness is
modelled faithfully: `if (createUserDto.password)` skips both a missing
and an empty-string password, and
`createUserDto.authProvider || AuthProvider.LOCAL` defaults a missing
provider to `local`. Column defaults applied on insert: `isActive = true`,
`emailVerified = false`, token columns null, `lastLogin` null, timestamps
set to the current instant. -/
def buildUser (hashPassword : String → String) (dto : CreateUserDto) (id now : Nat) : User :=
  { id := id
    email := dto.email
    password :=
      match dto.password with
      | some p => if p.isEmpty then none else some (hashPassword p)
      | none => none
    name := dto.name
    profilePicture := dto.profilePicture
    authProvider := dto.authProvider.getD .localProv
    providerId := dto.providerId
    isActive := true
    emailVerified := false
    emailVerificationToken := none
    resetPasswordToken := none
    resetPasswordExpires := none
    createdAt := now
    updatedAt := now
    lastLogin := none }

/-- `UsersService.create`: rejects with `ConflictException` when
`findByEmail` hits; otherwise builds the row (`buildUser`) and saves it,
the generated primary key being the store's next id. -/
def create (hashPassword : String → String) (s : Store) (dto : CreateUserDto) (now : Nat) :
    Except AuthError User × Store :=
  match findByEmail s dto.email with
  | some _ => (.error (.conflict "User with this email already exists"), s)
  | none =>
    (.ok (buildUser hashPassword dto s.nextId now),
     { users := s.users ++ [buildUser hashPassword dto s.nextId now],
       nextId := s.nextId + 1 })

/-- The projection selected by `UsersService.findById`:
`select: ['id', 'email', 'name', 'profilePicture', 'authProvider',
'isActive', 'createdAt']` — no password hash and no token columns. -/
structure ProfileView where
  id : Nat
  email : String
  name : String
  profilePicture : Option String
  authProvider : AuthProvider
  isActive : Bool
  createdAt : Nat
  deriving DecidableEq

/-- The `select` projection applied to a row. -/
def User.toProfileView (u : User) : ProfileView :=
  { id := u.id
    email := u.email
    name := u.name
    profilePicture := u.profilePicture
    authProvider := u.authProvider
    isActive := u.isActive
    createdAt := u.createdAt }

/-- `UsersService.findById`: `NotFoundException('User not found')` when the
id does not resolve, the selected projection otherwise. -/
def findById (s : Store) (id : Nat) : Except AuthError ProfileView :=
  match s.users.find? (fun u => u.id == id) with
  | none => .error (.notFound "User not found")
  | some u => .ok u.toProfileView

/-- Modelled from the spec: `UpdateUserDto` (`update-user.dto.ts` is not
among the sources). Following §6's registration payload with every field
optional, as a partial profile-update payload; a field absent from the
payload is `none`. -/
structure UpdateUserDto where
  email : Option String
  password : Option String
  name : Option String
  profilePicture : Option String
  deriving DecidableEq

/-- `Object.assign(user, updateUserDto)`: every field present in the dto
overwrites the corresponding field of the row, fields absent from the dto
are untouched. The password value is copied as supplied — not hashed. -/
def applyUpdate (u : User) (dto : UpdateUserDto) : User :=
  { u with
    email := dto.email.getD u.email
    password := match dto.password with | some p => some p | none => u.password
    name := dto.name.getD u.name
    profilePicture :=
      match dto.profilePicture with | some p => some p | none => u.profilePicture }

/-- `UsersService.update`: loads the row via `findById` (throwing
`NotFoundException` when absent), merges the dto onto it with
`Object.assign`, and saves. The persisted row is the old row with the dto
fields overwritten; the source returns the saved entity, modelled as that
updated row. No hashing function is in scope here. -/
def update (s : Store) (id : Nat) (dto : UpdateUserDto) : Except AuthError User × Store :=
  match s.users.find? (fun v => v.id == id) with
  | none => (.error (.notFound "User not found"), s)
  | some u =>
    (.ok (applyUpdate u dto),
     { s with users := s.users.map (fun v => if v.id == id then applyUpdate v dto else v) })

/-- `User` with the `password` property destructured away:
`const { password, ...result } = user`. All other properties, the token
columns included, are carried over. -/
structure PublicUser where
  id : Nat
  email : String
  name : String
  profilePicture : Option String
  authProvider : AuthProvider
  providerId : Option String
  isActive : Bool
  emailVerified : Bool
  emailVerificationToken : Option String
  resetPasswordToken : Option String
  resetPasswordExpires : Option Nat
  createdAt : Nat
  updatedAt : Nat
  lastLogin : Option Nat
  deriving DecidableEq

/-- The `{ password, ...rest }` destructuring. -/
def User.stripPassword (u : User) : PublicUser :=
  { id := u.id
    email := u.email
    name := u.name
    profilePicture := u.profilePicture
    authProvider := u.authProvider
    providerId := u.providerId
    isActive := u.isActive
    emailVerified := u.emailVerified
    emailVerificationToken := u.emailVerificationToken
    resetPasswordToken := u.resetPasswordToken
    resetPasswordExpires := u.resetPasswordExpires
    createdAt := u.createdAt
    updatedAt := u.updatedAt
    lastLogin := u.lastLogin }

/-- Result of `AuthService.validateUser`: `invalidCredentials` is the
`null` return (unknown email, missing stored hash, or failed bcrypt
compare — one and the same value for all three); `deactivated` is the
thrown `UnauthorizedException('Account is deactivated')`; `ok` carries the
user with the password destructured away. -/
inductive ValidateResult where
  | invalidCredentials
  | deactivated
  | ok (u : PublicUser)
  deriving DecidableEq

/-- `AuthService.validateUser`. `verify` is `bcrypt.compare`
(`UsersService.validatePassword`). JS truthiness of `!user.password` is
modelled faithfully: both a null and an empty-string hash short-circuit to
the `null` return before any compare. The `isActive` test runs only after
the compare has succeeded. -/
def validateUser (verify : String → String → Bool) (s : Store) (email password : String) :
    ValidateResult :=
  match findByEmail s email with
  | none => .invalidCredentials
  | some u =>
    match u.password with
    | none => .invalidCredentials
    | some h =>
      if h.isEmpty then .invalidCredentials
      else if verify password h then
        if u.isActive then .ok u.stripPassword else .deactivated
      else .invalidCredentials

/-- The `OAuthUserData` shape consumed by `AuthService.validateOAuthUser`;
the source casts the incoming `provider` string to `AuthProvider`. -/
structure OAuthUserData where
  email : String
  name : String
  profilePicture : Option String
  provider : AuthProvider
  providerId : String
  deriving DecidableEq

/-- The create-dto `validateOAuthUser` passes to `UsersService.create`:
the supplied identity attributes, the provider pair, and no password key. -/
def OAuthUserData.toCreate (d : OAuthUserData) : CreateUserDto :=
  { email := d.email
    password := none
    name := d.name
    profilePicture := d.profilePicture
    authProvider := some d.provider
    providerId := some d.providerId }

/-- `AuthService.validateOAuthUser`: (1) resolve by `(provider,
providerId)` — on a hit, refresh `lastLogin` and return the user object as
loaded (the source returns the stale object; the store carries the
refresh); (2) else resolve by email — on a hit, throw
`ConflictException`; (3) else create the user with the supplied provider
identity and no password. -/
def validateOAuthUser (hashPassword : String → String) (s : Store) (d : OAuthUserData)
    (now : Nat) : Except AuthError User × Store :=
  match findByProviderData s d.provider d.providerId with
  | some u => (.ok u, updateLastLogin s u.id now)
  | none =>
    match findByEmail s d.email with
    | some _ =>
      (.error (.conflict
        "An account with this email already exists. Please sign in with your password."), s)
    | none =>
      create hashPassword s d.toCreate now

/-- The claims the service itself places in the token:
`const payload = { email: user.email, sub: user.id }`. -/
structure Payload where
  email : String
  sub : Nat
  deriving DecidableEq

/-- A signed bearer token. Signing, the signature check and the
library-added iat/exp claims are the external `JwtService`; the token is
modelled as a wrapper whose decoding returns the signed payload. -/
structure SignedToken where
  payload : Payload
  deriving DecidableEq

/-- `jwtService.sign(payload)`. -/
def sign (p : Payload) : SignedToken := ⟨p⟩

/-- Decoding a verified token recovers the signed payload. -/
def SignedToken.decode (t : SignedToken) : Payload := t.payload

/-- Modelled from the spec: `RegisterDto` (`register.dto.ts` is not among
the sources); §6 gives the registration payload
`{email, password (min 8 chars), name, profilePicture?}` — the length
check is Transport Layer validation, ahead of this core. -/
structure RegisterDto where
  email : String
  password : String
  name : String
  profilePicture : Option String
  deriving DecidableEq

/-- The registration payload as the create-dto `register` passes along:
no `authProvider` and no `providerId` keys, so `create` defaults the
provider to `local`. -/
def RegisterDto.toCreate (dto : RegisterDto) : CreateUserDto :=
  { email := dto.email
    password := some dto.password
    name := dto.name
    profilePicture := dto.profilePicture
    authProvider := none
    providerId := none }

/-- The `{ user, access_token }` response of registration and login. -/
structure AuthOutput where
  user : PublicUser
  access_token : SignedToken
  deriving DecidableEq

/-- `AuthService.register`: create the user, strip the password property,
sign `{ email, sub: id }`. -/
def register (hashPassword : String → String) (s : Store) (dto : RegisterDto) (now : Nat) :
    Except AuthError AuthOutput × Store :=
  match create hashPassword s dto.toCreate now with
  | (.error e, s') => (.error e, s')
  | (.ok u, s') =>
    (.ok { user := u.stripPassword, access_token := sign { email := u.email, sub := u.id } },
     s')

/-- `AuthService.login`: refresh `lastLogin`, sign `{ email, sub: id }`,
return the user with the password property destructured away. -/
def login (s : Store) (u : User) (now : Nat) : AuthOutput × Store :=
  ({ user := u.stripPassword, access_token := sign { email := u.email, sub := u.id } },
   updateLastLogin s u.id now)

/-- `AuthService.getProfile`: delegates to `UsersService.findById`. -/
def getProfile (s : Store) (userId : Nat) : Except AuthError ProfileView :=
  findById s userId

/-- The §3 invariant: a stored user carries a password hash only when
their `authProvider` is `local`. -/
@[reducible] def LocalHashInv (s : Store) : Prop :=
  ∀ u ∈ s.users, u.password ≠ none → u.authProvider = .localProv

/-! Sample data used by the witnesses: a consistent bcrypt model (a hash
verifies exactly against the plaintext it was produced from), an active
local user, a deactivated local user, an OAuth-only user, and a user
carrying a password-reset token. -/

/-- Sample bcrypt `hash`. -/
def hashSample : String → String := fun pw => String.append "h:" pw

/-- Sample bcrypt `compare`, consistent with `hashSample`. -/
def verifySample : String → String → Bool := fun pw h => h == String.append "h:" pw

/-- An active local user with hashed password `h:pw`. -/
def uLocal : User :=
  { id := 0
    email := "a@x.com"
    password := some "h:pw"
    name := "A"
    profilePicture := none
    authProvider := .localProv
    providerId := none
    isActive := true
    emailVerified := false
    emailVerificationToken := none
    resetPasswordToken := none
    resetPasswordExpires := none
    createdAt := 0
    updatedAt := 0
    lastLogin := none }

/-- A deactivated local user with hashed password `h:pw`. -/
def uInactive : User := { uLocal with id := 1, email := "b@x.com", isActive := false }

/-- An OAuth-only user: no password hash, google identity. -/
def uGoogle : User :=
  { uLocal with
    id := 2
    email := "g@x.com"
    password := none
    authProvider := .google
    providerId := some "gid-1" }

/-- A local user with a `resetPasswordToken` column set. -/
def uWithToken : User :=
  { uLocal with id := 3, email := "t@x.com", resetPasswordToken := some "tok" }

/-- Sample store holding the three plain sample users. -/
def sampleStore : Store := { users := [uLocal, uInactive, uGoogle], nextId := 10 }

/-- Store holding only the user with the reset token set. -/
def storeWithToken : Store := { users := [uWithToken], nextId := 20 }

/-- A sample update payload carrying a raw password. -/
def dtoSample : UpdateUserDto :=
  { email := none, password := some "rawSecret", name := some "A2", profilePicture := none }

/-! Helper lemmas shared between the claim proofs. -/

/-- `Object.assign` of an update dto never touches the primary key. -/
theorem applyUpdate_id (u : User) (dto : UpdateUserDto) : (applyUpdate u dto).id = u.id := rfl

/-- Updating every row matching an id rewrites the row `find?` locates,
provided the rewrite preserves the id. -/
theorem find?_map_id_update (i : Nat) (f : User → User) (hf : ∀ u, (f u).id = u.id)
    (l : List User) :
    ∀ u, l.find? (fun x => x.id == i) = some u →
      (l.map (fun x => if x.id == i then f x else x)).find? (fun x => x.id == i) =
        some (f u) := by
  induction l with
  | nil => intro u hu; simp at hu
  | cons a t ih =>
    intro u hu
    by_cases hp : (a.id == i) = true
    · simp only [List.find?_cons, hp] at hu
      cases hu
      simp only [List.map_cons]
      rw [if_pos hp]
      simp only [List.find?_cons, hf, hp]
    · have hp' : (a.id == i) = false := by simpa using hp
      simp only [List.find?_cons, hp'] at hu
      simp only [List.map_cons]
      rw [if_neg hp]
      simp only [List.find?_cons, hp']
      exact ih u hu

/-- C1: local-credential validation collapses its three failure cases —
unknown email, user without a stored hash, failed bcrypt compare — into
the single `invalidCredentials` result (the `null` return), so none of the
three is distinguishable by the caller. -/
theorem C1_invalid_credentials_unified (verify : String → String → Bool) (s : Store)
    (email password : String)
    (h : findByEmail s email = none
      ∨ (∃ u, findByEmail s email = some u ∧ u.password = none)
      ∨ (∃ u hsh, findByEmail s email = some u ∧ u.password = some hsh
          ∧ verify password hsh = false)) :
    validateUser verify s email password = .invalidCredentials := by
  rcases h with h | ⟨u, hu, hp⟩ | ⟨u, hsh, hu, hp, hv⟩
  · simp [validateUser, h]
  · simp [validateUser, hu, hp]
  · by_cases he : hsh.isEmpty <;> simp [validateUser, hu, hp, hv, he]

/-- C1 witness: the three failure cases on concrete data — unknown email,
OAuth-only account, wrong password — all evaluate to `invalidCredentials`. -/
theorem C1_invalid_credentials_unified_witness :
    validateUser verifySample sampleStore "nobody@x.com" "pw" = .invalidCredentials
    ∧ validateUser verifySample sampleStore "g@x.com" "pw" = .invalidCredentials
    ∧ validateUser verifySample sampleStore "a@x.com" "wrong" = .invalidCredentials :=
  ⟨C1_invalid_credentials_unified verifySample sampleStore "nobody@x.com" "pw"
      (Or.inl (by decide)),
   C1_invalid_credentials_unified verifySample sampleStore "g@x.com" "pw"
      (Or.inr (Or.inl ⟨uGoogle, by decide, by decide⟩)),
   C1_invalid_credentials_unified verifySample sampleStore "a@x.com" "wrong"
      (Or.inr (Or.inr ⟨uLocal, "h:pw", by decide, by decide, by decide⟩))⟩

/-- C4: when the stored hash verifies but `isActive` is false, validation
yields the distinct `deactivated` condition; the `isActive` test runs only
after the compare, so the same deactivated account with a wrong password
yields `invalidCredentials`; the two conditions differ. -/
theorem C4_deactivated_distinct (verify : String → String → Bool) (s : Store)
    (email password : String) (u : User) (hsh : String)
    (hu : findByEmail s email = some u) (hp : u.password = some hsh)
    (hne : hsh.isEmpty = false) (hact : u.isActive = false) :
    (verify password hsh = true → validateUser verify s email password = .deactivated)
    ∧ (verify password hsh = false →
        validateUser verify s email password = .invalidCredentials)
    ∧ ValidateResult.deactivated ≠ ValidateResult.invalidCredentials := by
  refine ⟨fun hv => ?_, fun hv => ?_, by decide⟩
  · simp [validateUser, hu, hp, hne, hv, hact]
  · simp [validateUser, hu, hp, hne, hv]

/-- C4 witness: the deactivated sample user with the correct password hits
`deactivated`, with the wrong password hits `invalidCredentials`. -/
theorem C4_deactivated_distinct_witness :
    (verifySample "pw" "h:pw" = true →
      validateUser verifySample sampleStore "b@x.com" "pw" = .deactivated)
    ∧ (verifySample "pw" "h:pw" = false →
      validateUser verifySample sampleStore "b@x.com" "pw" = .invalidCredentials)
    ∧ ValidateResult.deactivated ≠ ValidateResult.invalidCredentials :=
  C4_deactivated_distinct verifySample sampleStore "b@x.com" "pw" uInactive "h:pw"
    (by decide) (by decide) (by decide) (by decide)

/-- C9: profile retrieval fails with `NotFoundException('User not found')`
when the id does not resolve, and otherwise returns the `select`
projection of the row, which is independent of the password hash and of
every token column. -/
theorem C9_profile_not_found_or_stripped (s : Store) (i : Nat) :
    (s.users.find? (fun v => v.id == i) = none →
      getProfile s i = .error (.notFound "User not found"))
    ∧ (∀ u, s.users.find? (fun v => v.id == i) = some u →
      getProfile s i = .ok u.toProfileView)
    ∧ (∀ (u : User) (p t r : Option String) (e : Option Nat),
      User.toProfileView
        { u with
          password := p
          emailVerificationToken := t
          resetPasswordToken := r
          resetPasswordExpires := e } = u.toProfileView) := by
  refine ⟨fun h => ?_, fun u h => ?_, fun u p t r e => rfl⟩
  · simp [getProfile, findById, h]
  · simp [getProfile, findById, h]

/-- C9 witness: a present id yields the projection, an absent id yields
not-found, on the sample store. -/
theorem C9_profile_not_found_or_stripped_witness :
    getProfile sampleStore 0 = .ok uLocal.toProfileView
    ∧ getProfile sampleStore 99 = .error (.notFound "User not found") :=
  ⟨(C9_profile_not_found_or_stripped sampleStore 0).2.1 uLocal (by decide),
   (C9_profile_not_found_or_stripped sampleStore 99).1 (by decide)⟩

/-- C10: on an existing user, `update` succeeds and the stored row becomes
the old row with every dto field overwritten verbatim; a supplied password
is stored exactly as given (no hashing on the update path), whereas
`create` does pass the supplied password through the hasher. -/
theorem C10_update_copies_dto_verbatim (s : Store) (i : Nat) (dto : UpdateUserDto)
    (u : User) (hu : s.users.find? (fun v => v.id == i) = some u) :
    update s i dto = (.ok (applyUpdate u dto),
      { s with users := s.users.map (fun v => if v.id == i then applyUpdate v dto else v) })
    ∧ (update s i dto).2.users.find? (fun v => v.id == i) = some (applyUpdate u dto)
    ∧ (∀ p, dto.password = some p → (applyUpdate u dto).password = some p)
    ∧ (∀ v, dto.email = some v → (applyUpdate u dto).email = v)
    ∧ (∀ v, dto.name = some v → (applyUpdate u dto).name = v)
    ∧ (∀ v, dto.profilePicture = some v → (applyUpdate u dto).profilePicture = some v)
    ∧ (∀ (hashPassword : String → String) (cdto : CreateUserDto) (now : Nat) (p : String),
        cdto.password = some p → p.isEmpty = false →
        ∃ v, (create hashPassword { users := [], nextId := 0 } cdto now).1 = .ok v
          ∧ v.password = some (hashPassword p)) := by
  refine ⟨?_, ?_, fun p hp => ?_, fun v hv => ?_, fun v hv => ?_, fun v hv => ?_,
    fun hashPassword cdto now p hp hne => ?_⟩
  · simp [update, hu]
  · simp only [update, hu]
    exact find?_map_id_update i (fun v => applyUpdate v dto) (fun _ => rfl) s.users u hu
  · simp [applyUpdate, hp]
  · simp [applyUpdate, hv]
  · simp [applyUpdate, hv]
  · simp [applyUpdate, hv]
  · refine ⟨buildUser hashPassword cdto 0 now, by simp [create, findByEmail], ?_⟩
    simp [buildUser, hp, hne]

/-- A sample OAuth identity matching the stored google user. -/
def dGoogle : OAuthUserData :=
  { email := "g@x.com", name := "G", profilePicture := none, provider := .google,
    providerId := "gid-1" }

/-- A sample OAuth identity with an unknown provider pair but the email of
the stored local user. -/
def dCollide : OAuthUserData :=
  { email := "a@x.com", name := "AA", profilePicture := none, provider := .google,
    providerId := "gid-404" }

/-- A fresh OAuth identity: unknown provider pair, unknown email. -/
def dFresh : OAuthUserData :=
  { email := "fresh@x.com", name := "F", profilePicture := none, provider := .google,
    providerId := "gid-9" }

/-- A sample registration payload with an email not yet stored. -/
def regDto : RegisterDto :=
  { email := "new@x.com", password := "longenough1", name := "N", profilePicture := none }

/-- The registration output `register` produces for `regDto` on the
sample store. -/
def outSample : AuthOutput :=
  { user := (buildUser hashSample regDto.toCreate 10 3).stripPassword
    access_token := sign { email := "new@x.com", sub := 10 } }

/-- The sample store after that registration. -/
def storeAfterReg : Store :=
  { users := sampleStore.users ++ [buildUser hashSample regDto.toCreate 10 3], nextId := 11 }

/-- C2: OAuth identity resolution, in order: (1) a `(provider,
providerId)` match refreshes that user's `lastLogin` and returns that
user, and does so for every possible input email — a linked identity
bypasses the email-collision check entirely; (2) otherwise a stored user
holding the input email makes the call fail with the conflict, merging
nothing; (3) otherwise a fresh user is created and returned. -/
theorem C2_oauth_resolution_order (hashPassword : String → String) (s : Store)
    (d : OAuthUserData) (now : Nat) :
    (∀ u, findByProviderData s d.provider d.providerId = some u →
      ∀ e, validateOAuthUser hashPassword s { d with email := e } now =
        (.ok u, updateLastLogin s u.id now))
    ∧ (findByProviderData s d.provider d.providerId = none →
      ∀ u, findByEmail s d.email = some u →
        (validateOAuthUser hashPassword s d now).1 =
          .error (.conflict
            "An account with this email already exists. Please sign in with your password."))
    ∧ (findByProviderData s d.provider d.providerId = none →
      findByEmail s d.email = none →
      validateOAuthUser hashPassword s d now =
        (.ok (buildUser hashPassword d.toCreate s.nextId now),
         { users := s.users ++ [buildUser hashPassword d.toCreate s.nextId now]
           nextId := s.nextId + 1 })) := by
  refine ⟨fun u hu e => ?_, fun h1 u h2 => ?_, fun h1 h2 => ?_⟩
  · simp [validateOAuthUser, hu]
  · simp [validateOAuthUser, h1, h2]
  · simp [validateOAuthUser, create, OAuthUserData.toCreate, h1, h2]

/-- C2 witness: the stored google identity resolves to the stored google
user with `lastLogin` refreshed, even when the input carries the email of
the existing local account — the collision check is bypassed. -/
theorem C2_oauth_resolution_order_witness :
    validateOAuthUser hashSample sampleStore { dGoogle with email := "a@x.com" } 5 =
      (.ok uGoogle, updateLastLogin sampleStore uGoogle.id 5) :=
  (C2_oauth_resolution_order hashSample sampleStore dGoogle 5).1 uGoogle (by decide)
    "a@x.com"

/-- C5: when the provider pair is unknown and the email is already taken,
OAuth resolution returns with the store exactly as it was — no row is
created — and the result is the conflict error. -/
theorem C5_conflict_no_new_row (hashPassword : String → String) (s : Store)
    (d : OAuthUserData) (now : Nat) (u : User)
    (h1 : findByProviderData s d.provider d.providerId = none)
    (h2 : findByEmail s d.email = some u) :
    (validateOAuthUser hashPassword s d now).2 = s
    ∧ (validateOAuthUser hashPassword s d now).1 =
      .error (.conflict
        "An account with this email already exists. Please sign in with your password.") := by
  constructor <;> simp [validateOAuthUser, h1, h2]

/-- C5 witness: the colliding sample identity leaves the sample store
untouched and yields the conflict. -/
theorem C5_conflict_no_new_row_witness :
    (validateOAuthUser hashSample sampleStore dCollide 6).2 = sampleStore
    ∧ (validateOAuthUser hashSample sampleStore dCollide 6).1 =
      .error (.conflict
        "An account with this email already exists. Please sign in with your password.") :=
  C5_conflict_no_new_row hashSample sampleStore dCollide 6 uLocal (by decide) (by decide)

/-- C7: registration with an already-stored email fails with the conflict,
whatever the password; registration with a fresh email succeeds, and
registering the same email a second time then yields the conflict,
whatever the second password. -/
theorem C7_register_success_then_conflict (hashPassword : String → String) (s : Store)
    (dto : RegisterDto) (now : Nat) :
    ((∃ u, findByEmail s dto.email = some u) →
      register hashPassword s dto now =
        (.error (.conflict "User with this email already exists"), s))
    ∧ (findByEmail s dto.email = none →
      register hashPassword s dto now =
        (.ok { user := (buildUser hashPassword dto.toCreate s.nextId now).stripPassword
               access_token := sign { email := dto.email, sub := s.nextId } },
         { users := s.users ++ [buildUser hashPassword dto.toCreate s.nextId now]
           nextId := s.nextId + 1 })
      ∧ ∀ (dto2 : RegisterDto) (now2 : Nat), dto2.email = dto.email →
          (register hashPassword (register hashPassword s dto now).2 dto2 now2).1 =
            .error (.conflict "User with this email already exists")) := by
  constructor
  · rintro ⟨u, hu⟩
    simp [register, create, RegisterDto.toCreate, hu]
  · intro h
    have hs2 : (register hashPassword s dto now).2 =
        { users := s.users ++ [buildUser hashPassword dto.toCreate s.nextId now]
          nextId := s.nextId + 1 } := by
      simp [register, create, RegisterDto.toCreate, h]
    refine ⟨by simp [register, create, RegisterDto.toCreate, buildUser, h],
      fun dto2 now2 he => ?_⟩
    have h0 : s.users.find? (fun v => v.email == dto2.email) = none := by
      rw [he]; exact h
    have hv : findByEmail
        { users := s.users ++ [buildUser hashPassword dto.toCreate s.nextId now]
          nextId := s.nextId + 1 } dto2.email =
        some (buildUser hashPassword dto.toCreate s.nextId now) := by
      unfold findByEmail
      rw [List.find?_append, h0]
      simp [buildUser, RegisterDto.toCreate, he]
    rw [hs2]
    simp only [RegisterDto.toCreate] at hv
    simp [register, create, RegisterDto.toCreate, hv]

/-- C7 witness: registering the fresh sample payload on the sample store
succeeds with the expected output, and registering it again on the
resulting store yields the conflict. -/
theorem C7_register_success_then_conflict_witness :
    register hashSample sampleStore regDto 3 = (.ok outSample, storeAfterReg)
    ∧ (register hashSample (register hashSample sampleStore regDto 3).2 regDto 4).1 =
      .error (.conflict "User with this email already exists") :=
  ⟨((C7_register_success_then_conflict hashSample sampleStore regDto 3).2 (by decide)).1,
   ((C7_register_success_then_conflict hashSample sampleStore regDto 3).2
      (by decide)).2 regDto 4 rfl⟩

/-- C8: every token issued by registration carries exactly the payload
`{ email, sub }` of the authenticated user — its decoded subject is the
created user's id and its email claim that user's email — and likewise for
every login. -/
theorem C8_token_payload (hashPassword : String → String) (s : Store) (dto : RegisterDto)
    (now : Nat) :
    (∀ out s', register hashPassword s dto now = (.ok out, s') →
      out.access_token.decode.sub = out.user.id
      ∧ out.access_token.decode.email = out.user.email)
    ∧ (∀ u : User, (login s u now).1.access_token.decode.sub = u.id
      ∧ (login s u now).1.access_token.decode.email = u.email) := by
  constructor
  · intro out s' ho
    cases h : findByEmail s dto.email with
    | some u => simp [register, create, RegisterDto.toCreate, h] at ho
    | none =>
      simp only [register, create, RegisterDto.toCreate, h] at ho
      injection ho with ho1 ho2
      injection ho1 with ho1
      subst ho1
      exact ⟨rfl, rfl⟩
  · exact fun u => ⟨rfl, rfl⟩

/-- C8 witness: the concrete registration output's decoded subject and
email match its user view, and a concrete login's decoded subject is the
logged-in user's id. -/
theorem C8_token_payload_witness :
    outSample.access_token.decode.sub = outSample.user.id
    ∧ outSample.access_token.decode.email = outSample.user.email
    ∧ (login sampleStore uLocal 9).1.access_token.decode.sub = uLocal.id :=
  ⟨((C8_token_payload hashSample sampleStore regDto 3).1 outSample storeAfterReg
      (by rfl)).1,
   ((C8_token_payload hashSample sampleStore regDto 3).1 outSample storeAfterReg
      (by rfl)).2,
   ((C8_token_payload hashSample sampleStore regDto 9).2 uLocal).1⟩

/-- `updateLastLogin` touches only `lastLogin`, so it preserves the §3
invariant. -/
theorem localHashInv_updateLastLogin {s : Store} (hinv : LocalHashInv s) (i now : Nat) :
    LocalHashInv (updateLastLogin s i now) := by
  intro u hu hp
  simp only [updateLastLogin, List.mem_map] at hu
  obtain ⟨v, hv, huv⟩ := hu
  by_cases h : (v.id == i) = true
  · rw [if_pos h] at huv
    subst huv
    exact hinv v hv hp
  · rw [if_neg h] at huv
    subst huv
    exact hinv v hv hp

/-- Appending a row that satisfies the hash/provider condition preserves
the §3 invariant. -/
theorem localHashInv_append {s : Store} (hinv : LocalHashInv s) (v : User) (n : Nat)
    (hv : v.password ≠ none → v.authProvider = .localProv) :
    LocalHashInv { users := s.users ++ [v], nextId := n } := by
  intro u hu hp
  rcases List.mem_append.mp hu with h | h
  · exact hinv u h hp
  · simp only [List.mem_singleton] at h
    subst h
    exact hv hp

/-- C6: the §3 invariant — a password hash only on accounts whose
provider is `local` — is preserved by registration, OAuth resolution and
login; and the user OAuth resolution creates on a first sign-in has no
password hash, is active, and carries exactly the supplied provider
identity. -/
theorem C6_local_hash_invariant (hashPassword : String → String) (s : Store)
    (hinv : LocalHashInv s) :
    (∀ (dto : RegisterDto) (now : Nat), LocalHashInv (register hashPassword s dto now).2)
    ∧ (∀ (d : OAuthUserData) (now : Nat),
        LocalHashInv (validateOAuthUser hashPassword s d now).2)
    ∧ (∀ (u : User) (now : Nat), LocalHashInv (login s u now).2)
    ∧ (∀ (d : OAuthUserData) (now : Nat) (u : User) (s' : Store),
        findByProviderData s d.provider d.providerId = none →
        validateOAuthUser hashPassword s d now = (.ok u, s') →
        u.password = none ∧ u.isActive = true ∧ u.authProvider = d.provider
        ∧ u.providerId = some d.providerId) := by
  refine ⟨fun dto now => ?_, fun d now => ?_, fun u now => ?_,
    fun d now u s' h1 ho => ?_⟩
  · cases h : findByEmail s dto.email with
    | some u => simpa [register, create, RegisterDto.toCreate, h] using hinv
    | none =>
      have hs2 : (register hashPassword s dto now).2 =
          { users := s.users ++ [buildUser hashPassword dto.toCreate s.nextId now]
            nextId := s.nextId + 1 } := by
        simp [register, create, RegisterDto.toCreate, h]
      rw [hs2]
      exact localHashInv_append hinv _ _
        (fun _ => by simp [buildUser, RegisterDto.toCreate])
  · cases h1 : findByProviderData s d.provider d.providerId with
    | some u =>
      have hs2 : (validateOAuthUser hashPassword s d now).2 =
          updateLastLogin s u.id now := by simp [validateOAuthUser, h1]
      rw [hs2]
      exact localHashInv_updateLastLogin hinv u.id now
    | none =>
      cases h2 : findByEmail s d.email with
      | some u => simpa [validateOAuthUser, h1, h2] using hinv
      | none =>
        have hs2 : (validateOAuthUser hashPassword s d now).2 =
            { users := s.users ++ [buildUser hashPassword d.toCreate s.nextId now]
              nextId := s.nextId + 1 } := by
          simp [validateOAuthUser, create, OAuthUserData.toCreate, h1, h2]
        rw [hs2]
        refine localHashInv_append hinv _ _ (fun hp => ?_)
        exact (hp (by simp [buildUser, OAuthUserData.toCreate])).elim
  · exact localHashInv_updateLastLogin hinv u.id now
  · cases h2 : findByEmail s d.email with
    | some v => simp [validateOAuthUser, h1, h2] at ho
    | none =>
      simp only [validateOAuthUser, create, OAuthUserData.toCreate, h1, h2] at ho
      injection ho with ho1 ho2
      injection ho1 with ho1
      subst ho1
      exact ⟨rfl, rfl, rfl, rfl⟩

/-- C6 witness: the invariant holds of the sample store and is kept by a
concrete registration; the user created by a concrete first OAuth sign-in
has no hash, is active, and carries the supplied google identity. -/
theorem C6_local_hash_invariant_witness :
    LocalHashInv (register hashSample sampleStore regDto 3).2
    ∧ ((buildUser hashSample dFresh.toCreate 10 8).password = none
      ∧ (buildUser hashSample dFresh.toCreate 10 8).isActive = true
      ∧ (buildUser hashSample dFresh.toCreate 10 8).authProvider = dFresh.provider
      ∧ (buildUser hashSample dFresh.toCreate 10 8).providerId = some dFresh.providerId) :=
  ⟨(C6_local_hash_invariant hashSample sampleStore (by decide)).1 regDto 3,
   (C6_local_hash_invariant hashSample sampleStore (by decide)).2.2.2 dFresh 8
     (buildUser hashSample dFresh.toCreate 10 8)
     { users := sampleStore.users ++ [buildUser hashSample dFresh.toCreate 10 8]
       nextId := 11 } (by decide) (by rfl)⟩

/-- C3 counterexample: a stored user whose `resetPasswordToken` column is
set passes local validation and logs in successfully, yet the returned
user view still carries the token — the response strips only the
`password` property, not the verification-token fields, so it is not the
case that every successful login's output excludes them. -/
theorem C3_counterexample :
    validateUser verifySample storeWithToken "t@x.com" "pw" = .ok uWithToken.stripPassword
    ∧ (login storeWithToken uWithToken 7).1.user.resetPasswordToken = some "tok"
    ∧ (login storeWithToken uWithToken 7).1.user.resetPasswordToken ≠ none :=
  ⟨by decide, rfl, by decide⟩

/-- C3 amended: both responses strip exactly the password — the view is
`stripPassword`, independent of the `password` field; registration's view
always has both verification-token fields unset (`create` never sets
them), and login's view carries the logged-in user's token fields
verbatim, which are unset for every user this core itself created. -/
theorem C3_response_views (hashPassword : String → String) (s : Store)
    (dto : RegisterDto) (now : Nat) :
    (∀ (u : User) (p : Option String),
      User.stripPassword { u with password := p } = u.stripPassword)
    ∧ (∀ out s', register hashPassword s dto now = (.ok out, s') →
      out.user.emailVerificationToken = none ∧ out.user.resetPasswordToken = none)
    ∧ (∀ u : User, (login s u now).1.user = u.stripPassword
      ∧ (login s u now).1.user.emailVerificationToken = u.emailVerificationToken
      ∧ (login s u now).1.user.resetPasswordToken = u.resetPasswordToken) := by
  refine ⟨fun u p => rfl, fun out s' ho => ?_, fun u => ⟨rfl, rfl, rfl⟩⟩
  cases h : findByEmail s dto.email with
  | some u => simp [register, create, RegisterDto.toCreate, h] at ho
  | none =>
    simp only [register, create, RegisterDto.toCreate, h] at ho
    injection ho with ho1 ho2
    injection ho1 with ho1
    subst ho1
    exact ⟨rfl, rfl⟩

/-- C3 amended witness: the concrete registration output carries no token
values, and a concrete login carries exactly the stored token fields. -/
theorem C3_response_views_witness :
    outSample.user.emailVerificationToken = none
    ∧ outSample.user.resetPasswordToken = none
    ∧ (login storeWithToken uWithToken 7).1.user.resetPasswordToken =
        uWithToken.resetPasswordToken :=
  ⟨((C3_response_views hashSample sampleStore regDto 3).2.1 outSample storeAfterReg
      (by rfl)).1,
   ((C3_response_views hashSample sampleStore regDto 3).2.1 outSample storeAfterReg
      (by rfl)).2,
   ((C3_response_views hashSample storeWithToken regDto 7).2.2 uWithToken).2.2⟩

/-- C10 witness: updating the sample local user with a payload that
carries a raw password stores that exact string as the row's password. -/
theorem C10_update_copies_dto_verbatim_witness :
    (update sampleStore 0 dtoSample).2.users.find? (fun v => v.id == 0) =
      some (applyUpdate uLocal dtoSample)
    ∧ (applyUpdate uLocal dtoSample).password = some "rawSecret" :=
  ⟨(C10_update_copies_dto_verbatim sampleStore 0 dtoSample uLocal (by decide)).2.1,
   (C10_update_copies_dto_verbatim sampleStore 0 dtoSample uLocal (by decide)).2.2.1
      "rawSecret" rfl⟩

end SalesAuth
